import Mathlib

/-!
Verification development for the terminal-assistant session controller
(`src/ui/ui.go`, plus the AI output types in the `ai` package).  The
controller is a Bubble Tea model: `Update` consumes messages (keystrokes,
engine results, stream chunks, runner feedback, errors) and returns a new
model together with a list of commands (asynchronous effects).  We embed
the state, the `Update` dispatch, the synchronous bodies of the command
constructors (`execCommand`, `editSettings`, `finishConfig`) and the
asynchronous closures (`startExec`, `startChatStream`, `awaitChatStream`,
the `ExecProcess` callbacks) as pure Lean functions, with external results
(engine completions, config writes, subprocess exits) passed in as oracle
parameters.  A nil-pointer dereference in the Go code is embedded as an
`Option.none` result of `update`.
-/

namespace TA

/-- RunMode of the program: persistent REPL or one-shot CLI (`ui.go` uses
`ReplMode` / `CliMode`). -/
inductive RunMode where
  | repl
  | cli
deriving DecidableEq

/-- PromptMode of the prompt: `ChatPromptMode`, `ExecPromptMode`,
`ConfigPromptMode`, `DefaultPromptMode`. -/
inductive PromptMode where
  | chat
  | exec
  | config
  | defaultMode
deriving DecidableEq

/-- EngineMode of the AI engine: `ai.ExecEngineMode` / `ai.ChatEngineMode`. -/
inductive EngineMode where
  | execEngine
  | chatEngine
deriving DecidableEq

/-- Modelled from the spec: the Engine collaborator (the `ai.Engine` type is
not under `src/`).  It carries its engine mode, the piped input installed by
`SetPipe`, and an abstract conversational memory that `Reset` clears. -/
structure Engine where
  mode : EngineMode
  pipe : String
  memory : List String
deriving DecidableEq

/-- Modelled from the spec: `ai.NewEngine(mode, config)` on success returns a
fresh engine in the requested mode with empty memory and no pipe. -/
def mkEngine (m : EngineMode) : Engine :=
  { mode := m, pipe := "", memory := [] }

/-- Modelled from the spec: `Engine.SetMode`. -/
def Engine.setMode (e : Engine) (m : EngineMode) : Engine :=
  { e with mode := m }

/-- Modelled from the spec: `Engine.Reset` clears the conversational memory. -/
def Engine.reset (e : Engine) : Engine :=
  { e with memory := [] }

/-- Modelled from the spec: `Engine.SetPipe`. -/
def Engine.setPipe (e : Engine) (p : String) : Engine :=
  { e with pipe := p }

/-- EngineExecOutput, from `src/unnamed/part_000` (`ai` package): command,
explanation, and the executable flag. -/
structure EngineExecOutput where
  command : String
  explanation : String
  executable : Bool
deriving DecidableEq

/-- EngineChatStreamOutput, from `src/unnamed/part_000` (`ai` package). -/
structure EngineChatStreamOutput where
  content : String
  last : Bool
  interrupt : Bool
  executable : Bool
deriving DecidableEq

/-- Modelled from the spec: `run.RunOutput` (the `run` package is not under
`src/`); built by `run.NewRunOutput(err, errorMessage, successMessage)`. -/
structure RunOutput where
  err : Option String
  errorMessage : String
  successMessage : String
deriving DecidableEq

/-- Modelled from the spec: `run.NewRunOutput`. -/
def mkRunOutput (e : Option String) (em sm : String) : RunOutput :=
  ⟨e, em, sm⟩

/-- Modelled from the spec: `RunOutput.HasError`. -/
def RunOutput.hasError (r : RunOutput) : Bool :=
  r.err.isSome

/-- Modelled from the spec: the Config collaborator (the `config` package is
not under `src/`); only the accessors `ui.go` uses are kept. -/
structure Config where
  defaultPromptMode : String
  editor : String
  configFile : String
deriving DecidableEq

/-- Modelled from the spec: `GetPromptModeFromString` resolves the configured
default prompt mode. -/
def GetPromptModeFromString (s : String) : PromptMode :=
  if s = "chat" then PromptMode.chat else PromptMode.exec

/-- ASCII lower-casing of one character, as Go's `strings.ToLower` maps the
inputs relevant here (plain keystroke strings). -/
def lowerChar (c : Char) : Char :=
  if 65 ≤ c.toNat ∧ c.toNat ≤ 90 then Char.ofNat (c.toNat + 32) else c

/-- Go's `strings.ToLower` on keystroke strings (ASCII case mapping). -/
def lowerString (s : String) : String :=
  ⟨s.data.map lowerChar⟩

/-- Keystroke messages dispatched by `Update`'s `tea.KeyMsg` switch; `other`
covers the `default` case and holds `msg.String()`. -/
inductive UiKey where
  | ctrlC
  | up
  | down
  | tab
  | enter
  | ctrlH
  | ctrlL
  | ctrlR
  | ctrlS
  | other (s : String)
deriving DecidableEq

/-- Modelled from the spec: the Prompt collaborator (line-edit widget,
presentation only): a value, a focus flag, and a prompt mode. -/
structure Prompt where
  value : String
  focused : Bool
  mode : PromptMode
deriving DecidableEq

/-- Modelled from the spec: `NewPrompt` starts empty and focused. -/
def NewPrompt (m : PromptMode) : Prompt :=
  { value := "", focused := true, mode := m }

/-- Modelled from the spec: `Prompt.SetValue`. -/
def Prompt.setValue (p : Prompt) (v : String) : Prompt :=
  { p with value := v }

/-- Modelled from the spec: `Prompt.Blur`. -/
def Prompt.blur (p : Prompt) : Prompt :=
  { p with focused := false }

/-- Modelled from the spec: `Prompt.Focus`. -/
def Prompt.focus (p : Prompt) : Prompt :=
  { p with focused := true }

/-- Modelled from the spec: `Prompt.SetMode`. -/
def Prompt.setMode (p : Prompt) (m : PromptMode) : Prompt :=
  { p with mode := m }

/-- Modelled from the spec: the line-edit widget's `Update` on a keystroke
appends typed characters when focused and ignores keys when blurred. -/
def Prompt.updateKey (p : Prompt) (k : UiKey) : Prompt :=
  if p.focused then
    match k with
    | UiKey.other s => { p with value := p.value ++ s }
    | _ => p
  else p

/-- Modelled from the spec: `Prompt.AsString` renders the submitted line. -/
def Prompt.asString (p : Prompt) : String :=
  p.value

/-- Modelled from the spec: `Prompt.View` (presentation only). -/
def Prompt.view (p : Prompt) : String :=
  p.value

/-- Modelled from the spec: the InputHistory collaborator (the `history`
package is not under `src/`): append-only entries plus a cursor. -/
structure History where
  entries : List String
  cursor : Nat
deriving DecidableEq

/-- Modelled from the spec: `History.GetPrevious` — if the cursor is positive,
decrement it and return the entry there; otherwise no entry, no mutation. -/
def histPrev (h : History) : History × Option String :=
  if 0 < h.cursor then
    (⟨h.entries, h.cursor - 1⟩, h.entries[h.cursor - 1]?)
  else (h, none)

/-- Modelled from the spec: `History.GetNext` — advance the cursor towards the
implicit empty slot past the newest entry. -/
def histNext (h : History) : History × Option String :=
  if h.cursor + 1 < h.entries.length then
    (⟨h.entries, h.cursor + 1⟩, h.entries[h.cursor + 1]?)
  else if h.cursor + 1 = h.entries.length then
    (⟨h.entries, h.cursor + 1⟩, some "")
  else (h, none)

/-- Modelled from the spec: `History.Add` appends and parks the cursor past
the newest entry. -/
def histAdd (s : String) (h : History) : History :=
  ⟨h.entries ++ [s], h.entries.length + 1⟩

/-- Modelled from the spec: `History.Reset`. -/
def histReset : History :=
  ⟨[], 0⟩

/-- Renderer collaborator, kept abstract: the markdown/colour functions
`ui.go` calls on `u.components.renderer`. -/
structure Renderer where
  renderContent : String → String
  renderSuccess : String → String
  renderError : String → String
  renderWarning : String → String
  renderHelp : String → String
  renderHelpMessage : String
  renderConfigMessage : String

/-- UiDimensions from `ui.go`. -/
structure UiDimensions where
  width : Nat
  height : Nat
deriving DecidableEq

/-- UiState from `ui.go`: the error slot, the two modes, the four phase
flags, and the four string slots. -/
structure UiState where
  error : Option String
  runMode : RunMode
  promptMode : PromptMode
  configuring : Bool
  querying : Bool
  confirming : Bool
  executing : Bool
  args : String
  pipe : String
  buffer : String
  command : String
deriving DecidableEq

/-- Ui from `ui.go`: state, dimensions, components (prompt/renderer), the
optional config and engine (nil until constructed), and the history. -/
structure Ui where
  state : UiState
  dims : UiDimensions
  prompt : Prompt
  renderer : Renderer
  config : Option Config
  engine : Option Engine
  history : History

/-- UiInput: run mode, prompt mode, args and pipe captured at startup. -/
structure UiInput where
  runMode : RunMode
  promptMode : PromptMode
  args : String
  pipe : String
deriving DecidableEq

/-- NewUi from `ui.go`: fresh state, 150×150 dimensions, a new prompt in the
input's prompt mode, empty history, and no config or engine yet. -/
def newUi (r : Renderer) (inp : UiInput) : Ui :=
  { state :=
      { error := none
        runMode := inp.runMode
        promptMode := inp.promptMode
        configuring := false
        querying := false
        confirming := false
        executing := false
        args := inp.args
        pipe := inp.pipe
        buffer := ""
        command := "" }
    dims := ⟨150, 150⟩
    prompt := NewPrompt inp.promptMode
    renderer := r
    config := none
    engine := none
    history := histReset }

/-- Commands (asynchronous effects) emitted by `Update`; `tea.Sequence` and
`tea.Batch` are flattened into a list and nil commands are dropped. -/
inductive TeaCmd where
  | println (s : String)
  | quit
  | clearScreen
  | blink
  | spinnerTick
  | promptEff
  | startExecReq (input : String)
  | startChatReq (input : String)
  | awaitChat
  | execProcess (command : String)
  | editSettingsProc (cmdline : String)
  | execComplReq
  | finishReplReset
deriving DecidableEq

/-- Messages consumed by `Update`'s type switch. -/
inductive Msg where
  | spinTick
  | winSize (w h : Nat)
  | key (k : UiKey)
  | execOut (o : EngineExecOutput)
  | chatOut (o : EngineChatStreamOutput)
  | runOut (r : RunOutput)
  | errMsg (e : String)
deriving DecidableEq

/-- Oracle environment for the external calls made synchronously inside
`Update`: `config.WriteConfig` and the error outcome of `ai.NewEngine`. -/
structure Env where
  writeConfig : String → Except String Config
  newEngineErr : EngineMode → Config → Option String

/-- finishConfig from `ui.go` (runs synchronously inside `Update` when Enter
is pressed while configuring): clears the configuring flag, writes the
config, rebuilds the engine in `ExecEngineMode`, installs the pipe, and
branches on run mode for the follow-up commands. -/
def finishConfig (env : Env) (key : String) (u : Ui) : Ui × List TeaCmd :=
  match env.writeConfig key with
  | Except.error e =>
    ({ u with state.configuring := false, state.error := some e }, [])
  | Except.ok cfg =>
    match env.newEngineErr EngineMode.execEngine cfg with
    | some e =>
      ({ u with state.configuring := false, config := some cfg,
                state.error := some e }, [])
    | none =>
      if u.state.runMode = RunMode.repl then
        ({ u with state.configuring := false, config := some cfg,
                  engine := some (if u.state.pipe ≠ ""
                    then (mkEngine EngineMode.execEngine).setPipe u.state.pipe
                    else mkEngine EngineMode.execEngine) },
         [TeaCmd.clearScreen,
          TeaCmd.println (u.renderer.renderSuccess "\n[settings ok]\n"),
          TeaCmd.blink, TeaCmd.finishReplReset])
      else
        if u.state.promptMode = PromptMode.exec then
          ({ u with state.configuring := false, config := some cfg,
                    engine := some (if u.state.pipe ≠ ""
                      then (mkEngine EngineMode.execEngine).setPipe u.state.pipe
                      else mkEngine EngineMode.execEngine),
                    state.querying := true, state.buffer := "" },
           [TeaCmd.println (u.renderer.renderSuccess "\n[settings ok]"),
            TeaCmd.spinnerTick, TeaCmd.execComplReq])
        else
          ({ u with state.configuring := false, config := some cfg,
                    engine := some (if u.state.pipe ≠ ""
                      then (mkEngine EngineMode.execEngine).setPipe u.state.pipe
                      else mkEngine EngineMode.execEngine) },
           [TeaCmd.startChatReq u.state.args, TeaCmd.awaitChat])

/-- Update from `ui.go`: the single event-loop dispatch.  The synchronous
bodies of `execCommand` and `editSettings` (which mutate the state at
command-construction time) are inlined where `ui.go` calls them.  A nil
engine or nil config dereference yields `none`. -/
def update (env : Env) (m : Msg) (u : Ui) : Option (Ui × List TeaCmd) :=
  match m with
  | Msg.spinTick =>
    if u.state.querying then some (u, [TeaCmd.spinnerTick]) else some (u, [])
  | Msg.winSize w h =>
    some ({ u with dims := ⟨w, h⟩ }, [])
  | Msg.key k =>
    match k with
    | UiKey.ctrlC => some (u, [TeaCmd.quit])
    | UiKey.up =>
      if !u.state.querying && !u.state.confirming then
        match histPrev u.history with
        | (h1, some v) =>
          some ({ u with history := h1,
                         prompt := (u.prompt.setValue v).updateKey UiKey.up },
                [TeaCmd.promptEff])
        | (h1, none) => some ({ u with history := h1 }, [])
      else some (u, [])
    | UiKey.down =>
      if !u.state.querying && !u.state.confirming then
        match histNext u.history with
        | (h1, some v) =>
          some ({ u with history := h1,
                         prompt := (u.prompt.setValue v).updateKey UiKey.down },
                [TeaCmd.promptEff])
        | (h1, none) => some ({ u with history := h1 }, [])
      else some (u, [])
    | UiKey.tab =>
      if !u.state.querying && !u.state.confirming then
        match u.engine with
        | none => none
        | some e =>
          if u.state.promptMode = PromptMode.chat then
            some ({ u with state.promptMode := PromptMode.exec,
                           prompt := (u.prompt.setMode PromptMode.exec).updateKey UiKey.tab,
                           engine := some ((e.setMode EngineMode.execEngine).reset) },
                  [TeaCmd.promptEff, TeaCmd.blink])
          else
            some ({ u with state.promptMode := PromptMode.chat,
                           prompt := (u.prompt.setMode PromptMode.chat).updateKey UiKey.tab,
                           engine := some ((e.setMode EngineMode.chatEngine).reset) },
                  [TeaCmd.promptEff, TeaCmd.blink])
      else some (u, [])
    | UiKey.enter =>
      if u.state.configuring then
        some (finishConfig env u.prompt.value u)
      else
        if !u.state.querying && !u.state.confirming then
          let input := u.prompt.value
          if input ≠ "" then
            let inputPrint := u.prompt.asString
            let p := ((u.prompt.setValue "").blur).updateKey UiKey.enter
            let un := { u with history := histAdd input u.history, prompt := p }
            if u.state.promptMode = PromptMode.chat then
              some (un, [TeaCmd.promptEff, TeaCmd.println inputPrint,
                         TeaCmd.startChatReq input, TeaCmd.awaitChat])
            else
              some (un, [TeaCmd.promptEff, TeaCmd.println inputPrint,
                         TeaCmd.startExecReq input, TeaCmd.spinnerTick])
          else some (u, [])
        else some (u, [])
    | UiKey.ctrlH =>
      if !u.state.configuring && !u.state.querying && !u.state.confirming then
        some ({ u with prompt := u.prompt.updateKey UiKey.ctrlH },
              [TeaCmd.promptEff,
               TeaCmd.println (u.renderer.renderContent u.renderer.renderHelpMessage),
               TeaCmd.blink])
      else some (u, [])
    | UiKey.ctrlL =>
      if !u.state.querying && !u.state.confirming then
        some ({ u with prompt := u.prompt.updateKey UiKey.ctrlL },
              [TeaCmd.promptEff, TeaCmd.clearScreen, TeaCmd.blink])
      else some (u, [])
    | UiKey.ctrlR =>
      if !u.state.querying && !u.state.confirming then
        match u.engine with
        | none => none
        | some e =>
          some ({ u with history := histReset, engine := some e.reset,
                         prompt := (u.prompt.setValue "").updateKey UiKey.ctrlR },
                [TeaCmd.promptEff, TeaCmd.clearScreen, TeaCmd.blink])
      else some (u, [])
    | UiKey.ctrlS =>
      if !u.state.querying && !u.state.confirming && !u.state.configuring
         && !u.state.executing then
        match u.config with
        | none => none
        | some cfg =>
          some ({ u with state.executing := true, state.buffer := "",
                         state.command := "", state.querying := false,
                         state.confirming := false,
                         prompt := (u.prompt.blur).updateKey UiKey.ctrlS },
                [TeaCmd.promptEff,
                 TeaCmd.editSettingsProc (cfg.editor ++ " " ++ cfg.configFile)])
      else some (u, [])
    | UiKey.other s =>
      if u.state.confirming then
        if lowerString s = "y" then
          some ({ u with state.confirming := false, state.executing := true,
                         state.buffer := "", state.querying := false,
                         prompt := u.prompt.setValue "" },
                [TeaCmd.execProcess u.state.command])
        else
          let p := ((u.prompt.updateKey (UiKey.other s)).setValue "").focus
          if u.state.runMode = RunMode.repl then
            some ({ u with state.confirming := false, state.executing := false,
                           state.buffer := "", state.command := "", prompt := p },
                  [TeaCmd.promptEff,
                   TeaCmd.println ("\n" ++ u.renderer.renderWarning "[cancel]" ++ "\n"),
                   TeaCmd.blink])
          else
            some ({ u with state.confirming := false, state.executing := false,
                           state.buffer := "", prompt := p },
                  [TeaCmd.promptEff,
                   TeaCmd.println ("\n" ++ u.renderer.renderWarning "[cancel]" ++ "\n"),
                   TeaCmd.quit])
      else
        some ({ u with prompt := (u.prompt.focus).updateKey (UiKey.other s) },
              [TeaCmd.promptEff, TeaCmd.blink])
  | Msg.execOut o =>
    if o.executable then
      let output := u.renderer.renderContent ("`" ++ o.command ++ "`")
        ++ "  " ++ u.renderer.renderHelp o.explanation
        ++ "\n\n  confirm execution? [y/N]"
      some ({ u with state.confirming := true, state.command := o.command,
                     prompt := u.prompt.blur },
            [TeaCmd.promptEff, TeaCmd.blink, TeaCmd.println output])
    else
      let output := u.renderer.renderContent o.explanation
      if u.state.runMode = RunMode.cli then
        some ({ u with prompt := u.prompt.focus },
              [TeaCmd.println output, TeaCmd.quit])
      else
        some ({ u with prompt := u.prompt.focus },
              [TeaCmd.promptEff, TeaCmd.blink, TeaCmd.println output])
  | Msg.chatOut o =>
    if o.last then
      let output := u.renderer.renderContent u.state.buffer
      if u.state.runMode = RunMode.cli then
        some ({ u with state.buffer := "", prompt := u.prompt.focus },
              [TeaCmd.println output, TeaCmd.quit])
      else
        some ({ u with state.buffer := "", prompt := u.prompt.focus },
              [TeaCmd.println output, TeaCmd.blink])
    else
      some (u, [TeaCmd.awaitChat])
  | Msg.runOut r =>
    let output :=
      if r.hasError then u.renderer.renderError ("\n" ++ r.errorMessage ++ "\n")
      else u.renderer.renderSuccess ("\n" ++ r.successMessage ++ "\n")
    if u.state.runMode = RunMode.cli then
      some ({ u with state.querying := false, prompt := u.prompt.focus },
            [TeaCmd.println output, TeaCmd.quit])
    else
      some ({ u with state.querying := false, prompt := u.prompt.focus },
            [TeaCmd.println output, TeaCmd.promptEff, TeaCmd.blink])
  | Msg.errMsg e =>
    some ({ u with state.error := some e }, [])

/-- View from `ui.go`: a stored error dominates; configuring shows buffer and
prompt; idle flags show the prompt; chat mode shows the buffer; exec-mode
querying shows the spinner; otherwise the buffer, or nothing while
executing. -/
def view (u : Ui) : String :=
  match u.state.error with
  | some e => u.renderer.renderError ("[error] " ++ e)
  | none =>
    if u.state.configuring then
      u.renderer.renderContent u.state.buffer ++ "\n" ++ u.prompt.view
    else if !u.state.querying && !u.state.confirming && !u.state.executing then
      u.prompt.view
    else if u.state.promptMode = PromptMode.chat then
      u.renderer.renderContent u.state.buffer
    else if u.state.querying then
      "spinner"
    else if !u.state.executing then
      u.renderer.renderContent u.state.buffer
    else ""

/-- startConfig from `ui.go` (the closure's body): enter the configuring
phase with a fresh config prompt. -/
def startConfigRun (u : Ui) : Ui :=
  { u with state.configuring := true, state.querying := false,
           state.confirming := false, state.executing := false,
           state.buffer := u.renderer.renderConfigMessage,
           state.command := "",
           prompt := NewPrompt PromptMode.config }

/-- startRepl from `ui.go` (the closure's body): install the config, resolve
the default prompt mode, construct the engine (the oracle `engErr` is the
`ai.NewEngine` outcome; on failure the closure returns the error as a
message), install the pipe and reset buffer, command, and prompt. -/
def startReplRun (cfg : Config) (engErr : Option String) (u : Ui) :
    Ui × Option String :=
  let pm := if u.state.promptMode = PromptMode.defaultMode
            then GetPromptModeFromString cfg.defaultPromptMode
            else u.state.promptMode
  let u := { u with config := some cfg, state.promptMode := pm }
  match engErr with
  | some e => (u, some e)
  | none =>
    let em := if pm = PromptMode.chat then EngineMode.chatEngine
              else EngineMode.execEngine
    let eng := mkEngine em
    let eng := if u.state.pipe ≠ "" then eng.setPipe u.state.pipe else eng
    ({ u with engine := some eng, state.buffer := "Welcome \n\n",
              state.command := "", prompt := NewPrompt pm },
     none)

/-- startCli from `ui.go`: like `startRepl` but run synchronously in `Init`;
on engine failure the error is stored; on success the session enters the
querying phase with cleared buffer and command. -/
def startCliRun (cfg : Config) (engErr : Option String) (u : Ui) : Ui :=
  let pm := if u.state.promptMode = PromptMode.defaultMode
            then GetPromptModeFromString cfg.defaultPromptMode
            else u.state.promptMode
  let u := { u with config := some cfg, state.promptMode := pm }
  match engErr with
  | some e => { u with state.error := some e }
  | none =>
    let em := if pm = PromptMode.chat then EngineMode.chatEngine
              else EngineMode.execEngine
    let eng := mkEngine em
    let eng := if u.state.pipe ≠ "" then eng.setPipe u.state.pipe else eng
    { u with engine := some eng, state.querying := true,
             state.confirming := false, state.buffer := "",
             state.command := "" }

/-- startExec from `ui.go` (the closure's body): sets querying with cleared
buffer and command, performs the completion (oracle `resp`), resets
querying, and yields the resulting message. -/
def startExecRun (resp : Except String EngineExecOutput) (u : Ui) : Ui × Msg :=
  let u := { u with state.querying := false, state.confirming := false,
                    state.buffer := "", state.command := "" }
  match resp with
  | Except.error e => (u, Msg.errMsg e)
  | Except.ok o => (u, Msg.execOut o)

/-- startChatStream from `ui.go` (the closure's body): enters querying with
cleared buffer and command; on engine failure the error is returned as a
message (querying stays set). -/
def startChatRun (err : Option String) (u : Ui) : Ui × Option Msg :=
  ({ u with state.querying := true, state.executing := false,
            state.confirming := false, state.buffer := "",
            state.command := "" },
   err.map Msg.errMsg)

/-- awaitChatStream from `ui.go` (the closure's body): a blocking receive of
one chunk, appended to the buffer; querying tracks whether more chunks are
expected; the chunk is delivered as a message. -/
def awaitRecv (c : EngineChatStreamOutput) (u : Ui) : Ui × Msg :=
  ({ u with state.buffer := u.state.buffer ++ c.content,
            state.querying := !c.last },
   Msg.chatOut c)

/-- execCommand's `ExecProcess` callback from `ui.go`: on subprocess exit,
clear the executing flag and the command and report a `RunOutput`. -/
def execProcessDone (err : Option String) (u : Ui) : Ui × RunOutput :=
  ({ u with state.executing := false, state.command := "" },
   mkRunOutput err "[error]" "[ok]")

/-- editSettings' `ExecProcess` callback from `ui.go`: clear executing and
command; on subprocess or config-reload failure report a settings error;
otherwise install the config, construct the engine, and — before the
construction error is checked — call `SetPipe` whenever the piped input is
non-empty (a nil dereference, `none` here, when construction failed);
finally install the engine and report success. -/
def editSettingsDone (procErr : Option String) (cfgRes : Except String Config)
    (engErr : Option String) (u : Ui) : Option (Ui × RunOutput) :=
  match procErr with
  | some e => some ({ u with state.executing := false, state.command := "" },
                    mkRunOutput (some e) "[settings error]" "")
  | none =>
    match cfgRes with
    | Except.error e =>
      some ({ u with state.executing := false, state.command := "" },
            mkRunOutput (some e) "[settings error]" "")
    | Except.ok cfg =>
      if u.state.pipe ≠ "" then
        match (if engErr = none then some (mkEngine EngineMode.execEngine)
               else none : Option Engine) with
        | none => none
        | some en =>
          match engErr with
          | some e =>
            some ({ u with state.executing := false, state.command := "",
                           config := some cfg },
                  mkRunOutput (some e) "[settings error]" "")
          | none =>
            some ({ u with state.executing := false, state.command := "",
                           config := some cfg,
                           engine := some (en.setPipe u.state.pipe) },
                  mkRunOutput none "" "[settings ok]")
      else
        match engErr with
        | some e =>
          some ({ u with state.executing := false, state.command := "",
                         config := some cfg },
                mkRunOutput (some e) "[settings error]" "")
        | none =>
          some ({ u with state.executing := false, state.command := "",
                         config := some cfg,
                         engine := some (mkEngine EngineMode.execEngine) },
                mkRunOutput none "" "[settings ok]")

/-- finishConfig's REPL follow-up closure from `ui.go`: clear buffer and
command and replace the prompt with a fresh exec-mode prompt. -/
def finishReplReset (u : Ui) : Ui :=
  { u with state.buffer := "", state.command := "",
           prompt := NewPrompt PromptMode.exec }

/-- The CLI `ExecCompletion` closure from `startCli`/`finishConfig`: perform
the one-shot completion (oracle `resp`), reset querying, and yield the
resulting message. -/
def execComplRun (resp : Except String EngineExecOutput) (u : Ui) : Ui × Msg :=
  let u := { u with state.querying := false }
  match resp with
  | Except.error e => (u, Msg.errMsg e)
  | Except.ok o => (u, Msg.execOut o)

/-- Run the chat-stream await loop: receive each chunk (buffer append) and
dispatch it through `update`, collecting the per-chunk command lists. -/
def runStream (env : Env) (u : Ui) :
    List EngineChatStreamOutput → Ui × List (List TeaCmd)
  | [] => (u, [])
  | c :: cs =>
    let r := awaitRecv c u
    match update env r.2 r.1 with
    | some (u2, out) =>
      let rest := runStream env u2 cs
      (rest.1, out :: rest.2)
    | none => (r.1, [])

/-- The commands of an `update` result (`[]` when the step panicked). -/
def cmdsOf : Option (Ui × List TeaCmd) → List TeaCmd
  | some (_, cs) => cs
  | none => []

/-- The post-state of an `update` result (the input state when the step
panicked). -/
def stepState (env : Env) (m : Msg) (u : Ui) : Ui :=
  match update env m u with
  | some (v, _) => v
  | none => u

/-- Reachable live session states: the states produced by program start
(`Init` handing off to `startConfig`, `startRepl`, or `startCli`) and closed
under message dispatch and the asynchronous closures, stopping at any step
that emits `tea.Quit`. -/
inductive Reach (env : Env) : Ui → Prop where
  | boot (r : Renderer) (inp : UiInput) :
      Reach env (startConfigRun (newUi r inp))
  | replStart (r : Renderer) (inp : UiInput) (cfg : Config)
      (engErr : Option String) :
      Reach env (startReplRun cfg engErr (newUi r inp)).1
  | cliStart (r : Renderer) (inp : UiInput) (cfg : Config)
      (engErr : Option String) :
      Reach env (startCliRun cfg engErr (newUi r inp))
  | upd (m : Msg) (u u1 : Ui) (cs : List TeaCmd) :
      Reach env u → update env m u = some (u1, cs) →
      TeaCmd.quit ∉ cs → Reach env u1
  | execDone (resp : Except String EngineExecOutput) (u : Ui) :
      Reach env u → Reach env (startExecRun resp u).1
  | chatStart (err : Option String) (u : Ui) :
      Reach env u → Reach env (startChatRun err u).1
  | chatRecv (c : EngineChatStreamOutput) (u : Ui) :
      Reach env u → Reach env (awaitRecv c u).1
  | procDone (err : Option String) (u : Ui) :
      Reach env u → Reach env (execProcessDone err u).1
  | settingsDone (pErr : Option String) (cfgRes : Except String Config)
      (engErr : Option String) (u u1 : Ui) (out : RunOutput) :
      Reach env u → editSettingsDone pErr cfgRes engErr u = some (u1, out) →
      Reach env u1
  | replReset (u : Ui) :
      Reach env u → Reach env (finishReplReset u)
  | execCompl (resp : Except String EngineExecOutput) (u : Ui) :
      Reach env u → Reach env (execComplRun resp u).1

/-- The commands emitted by a (non-panicking) step, for concrete traces. -/
def stepCmds (env : Env) (m : Msg) (u : Ui) : List TeaCmd :=
  cmdsOf (update env m u)

/-- Test renderer with transparent rendering functions. -/
def rT : Renderer :=
  ⟨fun s => s, fun s => s, fun s => s, fun s => s, fun s => s,
   "help text", "config message"⟩

/-- Test configuration. -/
def cfgT : Config :=
  ⟨"exec", "vi", "settings.json"⟩

/-- Test oracle environment: config writes succeed with `cfgT`, engine
construction succeeds. -/
def envT : Env :=
  ⟨fun _ => Except.ok cfgT, fun _ _ => none⟩

/-- Startup input for a REPL session in exec prompt mode. -/
def inpT : UiInput :=
  ⟨RunMode.repl, PromptMode.exec, "", ""⟩

/-- REPL session right after `startRepl` finished. -/
def u0T : Ui := (startReplRun cfgT none (newUi rT inpT)).1

/-- An executable engine completion, as in spec Scenario A. -/
def oT : EngineExecOutput := ⟨"ls -la", "lists files", true⟩

/-- Session after the executable completion arrived: Confirming. -/
def u1T : Ui := stepState envT (Msg.execOut oT) u0T

/-- Session after the user confirmed with "y": Executing. -/
def u2T : Ui := stepState envT (Msg.key (UiKey.other "y")) u1T

/-- The Confirming state `u1T` is reachable. -/
theorem reach_u1T : Reach envT u1T := by
  have h0 : Reach envT u0T := Reach.replStart rT inpT cfgT none
  exact Reach.upd (Msg.execOut oT) u0T u1T
    (stepCmds envT (Msg.execOut oT) u0T) h0 rfl (by decide)

/-- The Executing state `u2T` (confirmed, runner invoked, command still
stored) is reachable. -/
theorem reach_u2T : Reach envT u2T :=
  Reach.upd (Msg.key (UiKey.other "y")) u1T u2T
    (stepCmds envT (Msg.key (UiKey.other "y")) u1T) reach_u1T rfl (by decide)

/-- Weakened command/phase invariant that the code actually maintains on
live sessions: a non-empty stored command implies Confirming or Executing. -/
def CommandPhaseInv (u : Ui) : Prop :=
  u.state.command ≠ "" → u.state.confirming = true ∨ u.state.executing = true

/-- finishConfig leaves the stored command and the confirming and executing
flags untouched. -/
theorem finishConfig_fields (env : Env) (k : String) (u : Ui) :
    (finishConfig env k u).1.state.command = u.state.command ∧
    (finishConfig env k u).1.state.confirming = u.state.confirming ∧
    (finishConfig env k u).1.state.executing = u.state.executing := by
  rcases hw : env.writeConfig k with e | cfg
  · simp only [finishConfig, hw]
    refine ⟨?_, ?_, ?_⟩ <;> trivial
  · rcases hn : env.newEngineErr EngineMode.execEngine cfg with - | e
    · simp only [finishConfig, hw, hn]
      split
      · refine ⟨?_, ?_, ?_⟩ <;> trivial
      · split
        · refine ⟨?_, ?_, ?_⟩ <;> trivial
        · refine ⟨?_, ?_, ?_⟩ <;> trivial
    · simp only [finishConfig, hw, hn]
      refine ⟨?_, ?_, ?_⟩ <;> trivial

/-- A successful settings-edit callback always clears the stored command. -/
theorem editSettingsDone_command (p : Option String) (c : Except String Config)
    (g : Option String) (u u1 : Ui) (o : RunOutput)
    (e : editSettingsDone p c g u = some (u1, o)) : u1.state.command = "" := by
  rcases p with - | pe
  · rcases c with ce | cfg
    · simp only [editSettingsDone, Option.some.injEq, Prod.mk.injEq] at e
      obtain ⟨rfl, rfl⟩ := e
      rfl
    · simp only [editSettingsDone] at e
      split at e
      · split at e
        · exact Option.noConfusion e
        · split at e <;>
            (simp only [Option.some.injEq, Prod.mk.injEq] at e
             obtain ⟨rfl, rfl⟩ := e; rfl)
      · split at e <;>
          (simp only [Option.some.injEq, Prod.mk.injEq] at e
           obtain ⟨rfl, rfl⟩ := e; rfl)
  · simp only [editSettingsDone, Option.some.injEq, Prod.mk.injEq] at e
    obtain ⟨rfl, rfl⟩ := e
    rfl

/-- Every non-quitting `update` step preserves the weakened command/phase
invariant. -/
theorem update_inv (env : Env) (m : Msg) (u u1 : Ui) (cs : List TeaCmd)
    (h : CommandPhaseInv u) (e : update env m u = some (u1, cs))
    (hq : TeaCmd.quit ∉ cs) : CommandPhaseInv u1 := by
  unfold CommandPhaseInv at h ⊢
  cases m with
  | spinTick =>
    simp only [update] at e
    split at e <;>
      (simp only [Option.some.injEq, Prod.mk.injEq] at e
       obtain ⟨rfl, rfl⟩ := e; exact h)
  | winSize w hgt =>
    simp only [update, Option.some.injEq, Prod.mk.injEq] at e
    obtain ⟨rfl, rfl⟩ := e; exact h
  | errMsg er =>
    simp only [update, Option.some.injEq, Prod.mk.injEq] at e
    obtain ⟨rfl, rfl⟩ := e; exact h
  | execOut o =>
    simp only [update] at e
    split at e
    · simp only [Option.some.injEq, Prod.mk.injEq] at e
      obtain ⟨rfl, rfl⟩ := e
      exact fun _ => Or.inl rfl
    · split at e <;>
        (simp only [Option.some.injEq, Prod.mk.injEq] at e
         obtain ⟨rfl, rfl⟩ := e; exact h)
  | chatOut o =>
    simp only [update] at e
    split at e
    · split at e <;>
        (simp only [Option.some.injEq, Prod.mk.injEq] at e
         obtain ⟨rfl, rfl⟩ := e; exact h)
    · simp only [Option.some.injEq, Prod.mk.injEq] at e
      obtain ⟨rfl, rfl⟩ := e; exact h
  | runOut r =>
    simp only [update] at e
    split at e <;>
      (simp only [Option.some.injEq, Prod.mk.injEq] at e
       obtain ⟨rfl, rfl⟩ := e; exact h)
  | key k =>
    cases k with
    | ctrlC =>
      simp only [update, Option.some.injEq, Prod.mk.injEq] at e
      obtain ⟨rfl, rfl⟩ := e; exact h
    | up =>
      simp only [update] at e
      split at e
      · split at e <;>
          (simp only [Option.some.injEq, Prod.mk.injEq] at e
           obtain ⟨rfl, rfl⟩ := e; exact h)
      · simp only [Option.some.injEq, Prod.mk.injEq] at e
        obtain ⟨rfl, rfl⟩ := e; exact h
    | down =>
      simp only [update] at e
      split at e
      · split at e <;>
          (simp only [Option.some.injEq, Prod.mk.injEq] at e
           obtain ⟨rfl, rfl⟩ := e; exact h)
      · simp only [Option.some.injEq, Prod.mk.injEq] at e
        obtain ⟨rfl, rfl⟩ := e; exact h
    | tab =>
      simp only [update] at e
      split at e
      · split at e
        · exact Option.noConfusion e
        · split at e <;>
            (simp only [Option.some.injEq, Prod.mk.injEq] at e
             obtain ⟨rfl, rfl⟩ := e; exact h)
      · simp only [Option.some.injEq, Prod.mk.injEq] at e
        obtain ⟨rfl, rfl⟩ := e; exact h
    | enter =>
      simp only [update] at e
      split at e
      · rw [Option.some.injEq] at e
        have hfst : (finishConfig env u.prompt.value u).1 = u1 :=
          congrArg Prod.fst e
        obtain ⟨h1, h2, h3⟩ := finishConfig_fields env u.prompt.value u
        subst hfst
        intro hc
        rw [h1] at hc
        rw [h2, h3]
        exact h hc
      · split at e
        · split at e
          · split at e <;>
              (simp only [Option.some.injEq, Prod.mk.injEq] at e
               obtain ⟨rfl, rfl⟩ := e; exact h)
          · simp only [Option.some.injEq, Prod.mk.injEq] at e
            obtain ⟨rfl, rfl⟩ := e; exact h
        · simp only [Option.some.injEq, Prod.mk.injEq] at e
          obtain ⟨rfl, rfl⟩ := e; exact h
    | ctrlH =>
      simp only [update] at e
      split at e <;>
        (simp only [Option.some.injEq, Prod.mk.injEq] at e
         obtain ⟨rfl, rfl⟩ := e; exact h)
    | ctrlL =>
      simp only [update] at e
      split at e <;>
        (simp only [Option.some.injEq, Prod.mk.injEq] at e
         obtain ⟨rfl, rfl⟩ := e; exact h)
    | ctrlR =>
      simp only [update] at e
      split at e
      · split at e
        · exact Option.noConfusion e
        · simp only [Option.some.injEq, Prod.mk.injEq] at e
          obtain ⟨rfl, rfl⟩ := e; exact h
      · simp only [Option.some.injEq, Prod.mk.injEq] at e
        obtain ⟨rfl, rfl⟩ := e; exact h
    | ctrlS =>
      simp only [update] at e
      split at e
      · split at e
        · exact Option.noConfusion e
        · simp only [Option.some.injEq, Prod.mk.injEq] at e
          obtain ⟨rfl, rfl⟩ := e
          intro hc
          exact absurd rfl hc
      · simp only [Option.some.injEq, Prod.mk.injEq] at e
        obtain ⟨rfl, rfl⟩ := e; exact h
    | other s =>
      simp only [update] at e
      split at e
      · split at e
        · simp only [Option.some.injEq, Prod.mk.injEq] at e
          obtain ⟨rfl, rfl⟩ := e
          exact fun _ => Or.inr rfl
        · split at e
          · simp only [Option.some.injEq, Prod.mk.injEq] at e
            obtain ⟨rfl, rfl⟩ := e
            intro hc
            exact absurd rfl hc
          · simp only [Option.some.injEq, Prod.mk.injEq] at e
            obtain ⟨rfl, rfl⟩ := e
            exact absurd (by simp) hq
      · simp only [Option.some.injEq, Prod.mk.injEq] at e
        obtain ⟨rfl, rfl⟩ := e; exact h

/-- Every reachable live session state satisfies the weakened command/phase
invariant. -/
theorem reach_inv (env : Env) (u : Ui) (h : Reach env u) : CommandPhaseInv u := by
  induction h with
  | boot r inp => exact fun hc => absurd rfl hc
  | replStart r inp cfg engErr =>
    cases engErr <;> exact fun hc => absurd rfl hc
  | cliStart r inp cfg engErr =>
    cases engErr <;> exact fun hc => absurd rfl hc
  | upd m u u1 cs _ e hq ih => exact update_inv env m u u1 cs ih e hq
  | execDone resp u _ ih =>
    cases resp <;> exact fun hc => absurd rfl hc
  | chatStart err u _ ih => exact fun hc => absurd rfl hc
  | chatRecv c u _ ih => exact ih
  | procDone err u _ ih => exact fun hc => absurd rfl hc
  | settingsDone pErr cfgRes engErr u u1 out _ e ih =>
    intro hc
    exact absurd (editSettingsDone_command pErr cfgRes engErr u u1 out e) hc
  | replReset u _ ih => exact fun hc => absurd rfl hc
  | execCompl resp u _ ih =>
    cases resp <;> exact ih

/-- Confirming plus a keystroke lower-casing to "y" runs the stored command:
the confirming flag falls, the executing flag rises, the buffer and prompt
value are cleared, and the single emitted command is the runner invocation
on the stored command — which stays stored. -/
theorem update_confirm_y (env : Env) (u : Ui) (s : String)
    (hcf : u.state.confirming = true) (hy : lowerString s = "y") :
    update env (Msg.key (UiKey.other s)) u =
      some ({ u with state.confirming := false, state.executing := true,
                     state.buffer := "", state.querying := false,
                     prompt := u.prompt.setValue "" },
            [TeaCmd.execProcess u.state.command]) := by
  rcases u with ⟨⟨er, rm, pm, cg, q, cf, ex, ar, pi, bu, cm⟩, di, pr, re, co, en, hi⟩
  subst hcf
  simp [update, hy]

/-- Confirming plus any other default-case keystroke cancels: the confirming
and executing flags fall, the prompt is cleared and focused, and the
cancellation notice is printed — followed by Quit exactly in CLI mode (where
the command slot is left as it was; in REPL mode it is cleared). -/
theorem update_confirm_cancel (env : Env) (u : Ui) (s : String)
    (hcf : u.state.confirming = true) (hn : lowerString s ≠ "y") :
    update env (Msg.key (UiKey.other s)) u =
      (if u.state.runMode = RunMode.repl then
        some ({ u with state.confirming := false, state.executing := false,
                       state.buffer := "", state.command := "",
                       prompt := ((u.prompt.updateKey (UiKey.other s)).setValue "").focus },
              [TeaCmd.promptEff,
               TeaCmd.println ("\n" ++ u.renderer.renderWarning "[cancel]" ++ "\n"),
               TeaCmd.blink])
      else
        some ({ u with state.confirming := false, state.executing := false,
                       state.buffer := "",
                       prompt := ((u.prompt.updateKey (UiKey.other s)).setValue "").focus },
              [TeaCmd.promptEff,
               TeaCmd.println ("\n" ++ u.renderer.renderWarning "[cancel]" ++ "\n"),
               TeaCmd.quit])) := by
  rcases u with ⟨⟨er, rm, pm, cg, q, cf, ex, ar, pi, bu, cm⟩, di, pr, re, co, en, hi⟩
  subst hcf
  cases rm <;> simp [update, hn]

/-- Enter while Confirming (and not Configuring) is a complete no-op: the
KeyEnter case is guarded by the negated confirming flag, so neither branch
runs and the state is returned unchanged with no commands. -/
theorem update_confirm_enter (env : Env) (u : Ui)
    (hcf : u.state.confirming = true) (hcg : u.state.configuring = false) :
    update env (Msg.key UiKey.enter) u = some (u, []) := by
  rcases u with ⟨⟨er, rm, pm, cg, q, cf, ex, ar, pi, bu, cm⟩, di, pr, re, co, en, hi⟩
  subst hcf
  subst hcg
  simp [update]

/-- C1: the claim fails on the code.  Scenario: a REPL session receives an
executable completion for "ls -la" (entering Confirming) and the user
confirms with "y".  The "y" branch returns before the `command = ""`
assignment at the end of the confirming case, so the resulting reachable
live state has `confirming = false` while the stored command is still
"ls -la" — contradicting "whenever confirming is false the stored command is
the empty string". -/
theorem claim1_counterexample :
    Reach envT u2T ∧ u2T.state.confirming = false ∧
    u2T.state.command = "ls -la" :=
  ⟨reach_u2T, rfl, rfl⟩

/-- C1 (amended): in every reachable live session state (no Quit emitted
yet), the stored command is non-empty only while the session is Confirming
or Executing — the command survives a "y" confirmation into the Executing
phase and is cleared only by the runner-completion callback. -/
theorem claim1_amended (env : Env) (u : Ui) (h : Reach env u)
    (hc : u.state.command ≠ "") :
    u.state.confirming = true ∨ u.state.executing = true :=
  reach_inv env u h hc

/-- C1 (amended) witness: the post-confirmation state `u2T` is reachable,
stores "ls -la", and is indeed Executing. -/
theorem claim1_amended_witness :
    u2T.state.confirming = true ∨ u2T.state.executing = true :=
  claim1_amended envT u2T reach_u2T (by decide)

/-- C2: the claim fails on the code.  Confirming "ls -la" with "y" emits the
runner invocation on "ls -la" while the post-state still stores "ls -la":
the pending command is not cleared before the Runner is invoked (it is
cleared only by the runner-completion callback). -/
theorem claim2_counterexample :
    cmdsOf (update envT (Msg.key (UiKey.other "y")) u1T) =
      [TeaCmd.execProcess "ls -la"] ∧
    u2T.state.command = "ls -la" :=
  ⟨rfl, rfl⟩

/-- C2 (amended): when the user confirms with "y", the controller clears the
confirming flag — not the pending command — before invoking the Runner on
the stored command; a repeated "y" keystroke cannot re-execute because the
session is no longer Confirming, so the repeated event emits no runner
invocation. -/
theorem claim2_amended (env : Env) (u : Ui) (hcf : u.state.confirming = true) :
    update env (Msg.key (UiKey.other "y")) u =
      some ({ u with state.confirming := false, state.executing := true,
                     state.buffer := "", state.querying := false,
                     prompt := u.prompt.setValue "" },
            [TeaCmd.execProcess u.state.command]) ∧
    (∀ c : String, TeaCmd.execProcess c ∉
      cmdsOf (update env (Msg.key (UiKey.other "y"))
        { u with state.confirming := false, state.executing := true,
                 state.buffer := "", state.querying := false,
                 prompt := u.prompt.setValue "" })) := by
  refine ⟨update_confirm_y env u "y" hcf rfl, fun c => ?_⟩
  simp [update, cmdsOf]

/-- C2 (amended) witness: instantiated at the reachable Confirming state
`u1T`. -/
theorem claim2_amended_witness :
    update envT (Msg.key (UiKey.other "y")) u1T =
      some ({ u1T with state.confirming := false, state.executing := true,
                       state.buffer := "", state.querying := false,
                       prompt := u1T.prompt.setValue "" },
            [TeaCmd.execProcess u1T.state.command]) :=
  (claim2_amended envT u1T rfl).1

/-- C3: the claim fails on the code.  Enter ("the empty input") while
Confirming does not cancel: the KeyEnter case is guarded by the confirming
flag, so the keystroke is a complete no-op and the session remains
Confirming. -/
theorem claim3_counterexample :
    u1T.state.confirming = true ∧
    update envT (Msg.key UiKey.enter) u1T = some (u1T, []) ∧
    (stepState envT (Msg.key UiKey.enter) u1T).state.confirming = true :=
  ⟨rfl, rfl, rfl⟩

/-- C3 (amended): only default-case keystrokes decide the confirmation, via
a case-insensitive comparison with "y": "y" and "Y" confirm (the stored
command is run) and every other default-case input cancels with a
cancellation notice, while the specially-bound Enter key is a no-op that
leaves the session Confirming. -/
theorem claim3_amended (env : Env) (u : Ui) (s : String)
    (hcf : u.state.confirming = true) (hcg : u.state.configuring = false) :
    (lowerString s = "y" →
      update env (Msg.key (UiKey.other s)) u =
        some ({ u with state.confirming := false, state.executing := true,
                       state.buffer := "", state.querying := false,
                       prompt := u.prompt.setValue "" },
              [TeaCmd.execProcess u.state.command])) ∧
    (lowerString s ≠ "y" →
      ∃ u1 cs, update env (Msg.key (UiKey.other s)) u = some (u1, cs) ∧
        u1.state.confirming = false ∧ u1.state.executing = false ∧
        TeaCmd.println ("\n" ++ u.renderer.renderWarning "[cancel]" ++ "\n")
          ∈ cs) ∧
    update env (Msg.key UiKey.enter) u = some (u, []) := by
  refine ⟨fun hy => update_confirm_y env u s hcf hy, fun hn => ?_,
          update_confirm_enter env u hcf hcg⟩
  have hc := update_confirm_cancel env u s hcf hn
  by_cases hr : u.state.runMode = RunMode.repl
  · rw [if_pos hr] at hc
    exact ⟨_, _, hc, rfl, rfl, by simp⟩
  · rw [if_neg hr] at hc
    exact ⟨_, _, hc, rfl, rfl, by simp⟩

/-- C3 (amended) witness: "Y" confirms at the reachable Confirming state
`u1T` (case-insensitive match). -/
theorem claim3_amended_witness :
    update envT (Msg.key (UiKey.other "Y")) u1T =
      some ({ u1T with state.confirming := false, state.executing := true,
                       state.buffer := "", state.querying := false,
                       prompt := u1T.prompt.setValue "" },
            [TeaCmd.execProcess u1T.state.command]) :=
  (claim3_amended envT u1T "Y" rfl rfl).1 (by decide)

/-- CLI session fixture (exec mode, argument "hello"). -/
def uCliT : Ui :=
  startCliRun cfgT none (newUi rT ⟨RunMode.cli, PromptMode.exec, "hello", ""⟩)

/-- REPL session in the middle of a chat-stream query (querying). -/
def uQT : Ui := (startChatRun none u0T).1

/-- C4: the claim fails on the code.  The error handler only stores the
error and emits no commands at all: in CLI mode the process is not quit (no
Quit command), and a REPL session that was Querying stays Querying (it does
not return to Idle) — the stored error merely dominates rendering. -/
theorem claim4_counterexample :
    uCliT.state.runMode = RunMode.cli ∧
    cmdsOf (update envT (Msg.errMsg "boom") uCliT) = [] ∧
    uQT.state.querying = true ∧
    (stepState envT (Msg.errMsg "boom") uQT).state.querying = true :=
  ⟨rfl, rfl, rfl, rfl⟩

/-- C4 (amended): when an asynchronous error message arrives, the handler
stores it and emits no commands — no quit in CLI mode and no phase change in
REPL mode; from then on the View renders the error, dominating every other
view. -/
theorem claim4_amended (env : Env) (u : Ui) (e : String) :
    update env (Msg.errMsg e) u = some ({ u with state.error := some e }, []) ∧
    view { u with state.error := some e } =
      u.renderer.renderError ("[error] " ++ e) :=
  ⟨rfl, rfl⟩

/-- Bootstrap configuring state: the configuration was missing at startup,
so `Init` handed off to `startConfig`; no engine exists yet. -/
def uCfgT : Ui := startConfigRun (newUi rT inpT)

/-- C5: the claim fails on the code.  Tab is guarded only by the negated
querying and confirming flags, so in the reachable bootstrap Configuring
state it is not a no-op: the engine is nil there and the toggle dereferences
it (`u.engine.SetMode`), which is a panic (`none`), not an unchanged
session. -/
theorem claim5_counterexample :
    Reach envT uCfgT ∧ uCfgT.state.configuring = true ∧
    update envT (Msg.key UiKey.tab) uCfgT = none :=
  ⟨Reach.boot rT inpT, rfl, rfl⟩

/-- C5 (amended): Tab is inert exactly while Querying or Confirming; in any
other state (including Executing and Configuring) it toggles the prompt
mode Chat↔Exec, and every successful toggle resets the Engine's
conversational memory — while in the bootstrap Configuring state (engine
still nil) it dereferences the nil engine (panic). -/
theorem claim5_amended (env : Env) (u : Ui) (e : Engine) :
    ((u.state.querying = true ∨ u.state.confirming = true) →
      update env (Msg.key UiKey.tab) u = some (u, [])) ∧
    (u.state.querying = false → u.state.confirming = false →
      u.engine = none → update env (Msg.key UiKey.tab) u = none) ∧
    (u.state.querying = false → u.state.confirming = false →
      u.engine = some e →
      ∃ u1, update env (Msg.key UiKey.tab) u =
          some (u1, [TeaCmd.promptEff, TeaCmd.blink]) ∧
        u1.state.promptMode =
          (if u.state.promptMode = PromptMode.chat then PromptMode.exec
           else PromptMode.chat) ∧
        u1.engine = some
          { mode := (if u.state.promptMode = PromptMode.chat
                     then EngineMode.execEngine else EngineMode.chatEngine),
            pipe := e.pipe, memory := [] } ∧
        u1.state.querying = u.state.querying ∧
        u1.state.confirming = u.state.confirming ∧
        u1.state.executing = u.state.executing ∧
        u1.state.configuring = u.state.configuring) := by
  rcases u with ⟨⟨er, rm, pm, cg, q, cf, ex, ar, pi, bu, cm⟩, di, pr, re, co, en, hi⟩
  refine ⟨fun h => ?_, fun h1 h2 h3 => ?_, fun h1 h2 h3 => ?_⟩
  · rcases h with h | h <;> subst h <;> simp [update]
  · subst h1; subst h2; subst h3
    simp [update]
  · subst h1; subst h2; subst h3
    cases pm <;> exact ⟨_, rfl, rfl, rfl, rfl, rfl, rfl, rfl⟩

/-- C5 (amended) witness: Tab is a no-op at the reachable Confirming state
`u1T`, and panics at the reachable bootstrap Configuring state `uCfgT`. -/
theorem claim5_amended_witness :
    update envT (Msg.key UiKey.tab) u1T = some (u1T, []) ∧
    update envT (Msg.key UiKey.tab) uCfgT = none :=
  ⟨(claim5_amended envT u1T (mkEngine EngineMode.execEngine)).1 (Or.inr rfl),
   (claim5_amended envT uCfgT (mkEngine EngineMode.execEngine)).2.1 rfl rfl rfl⟩

/-- Concatenation of the contents of a list of chat chunks, in order. -/
def contentsOf : List EngineChatStreamOutput → String
  | [] => ""
  | c :: cs => c.content ++ contentsOf cs

/-- C6: the chat-stream await loop is exact.  Running the loop on a stream
whose chunks are all non-final followed by one final chunk: every non-final
chunk is received (appended to the buffer) and answered with exactly one new
await request; the loop terminates exactly at the final chunk, printing the
rendered buffer holding every fragment in order (none dropped) and issuing
no further await; the final state has an empty buffer and is no longer
querying. -/
theorem claim6 (env : Env) (u : Ui) (cs : List EngineChatStreamOutput)
    (fin : EngineChatStreamOutput)
    (h : ∀ c ∈ cs, c.last = false) (hf : fin.last = true) :
    runStream env u (cs ++ [fin]) =
      ({ u with state.buffer := "", state.querying := false,
                prompt := u.prompt.focus },
       cs.map (fun _ => [TeaCmd.awaitChat]) ++
         [if u.state.runMode = RunMode.cli then
            [TeaCmd.println (u.renderer.renderContent
              (u.state.buffer ++ contentsOf cs ++ fin.content)), TeaCmd.quit]
          else
            [TeaCmd.println (u.renderer.renderContent
              (u.state.buffer ++ contentsOf cs ++ fin.content)),
             TeaCmd.blink]]) := by
  induction cs generalizing u with
  | nil =>
    by_cases hr : u.state.runMode = RunMode.cli
    · simp [runStream, awaitRecv, update, hf, hr, contentsOf]
    · simp [runStream, awaitRecv, update, hf, hr, contentsOf]
  | cons c rest ih =>
    have hc : c.last = false := h c (List.mem_cons_self c rest)
    have hrest : ∀ x ∈ rest, x.last = false :=
      fun x hx => h x (List.mem_cons_of_mem c hx)
    have hstep :
        runStream env u ((c :: rest) ++ [fin]) =
          (let r := awaitRecv c u
           match update env r.2 r.1 with
           | some (u2, out) =>
             let rr := runStream env u2 (rest ++ [fin])
             (rr.1, out :: rr.2)
           | none => (r.1, [])) := rfl
    rw [hstep]
    have hupd : update env (Msg.chatOut c)
        { u with state.buffer := u.state.buffer ++ c.content,
                 state.querying := !c.last } =
        some ({ u with state.buffer := u.state.buffer ++ c.content,
                       state.querying := !c.last }, [TeaCmd.awaitChat]) := by
      simp [update, hc]
    simp only [awaitRecv]
    rw [hupd]
    dsimp only
    rw [ih _ hrest]
    simp [contentsOf, hc, String.append_assoc]

/-- Sample non-final chat chunk. -/
def chunkA : EngineChatStreamOutput := ⟨"Hello ", false, false, false⟩

/-- Sample final chat chunk. -/
def chunkB : EngineChatStreamOutput := ⟨"world", true, false, false⟩

/-- C6 witness: the loop run at the concrete REPL state `u0T` on the
two-chunk stream. -/
theorem claim6_witness :
    runStream envT u0T ([chunkA] ++ [chunkB]) =
      ({ u0T with state.buffer := "", state.querying := false,
                  prompt := u0T.prompt.focus },
       [chunkA].map (fun _ => [TeaCmd.awaitChat]) ++
         [if u0T.state.runMode = RunMode.cli then
            [TeaCmd.println (u0T.renderer.renderContent
              (u0T.state.buffer ++ contentsOf [chunkA] ++ chunkB.content)),
             TeaCmd.quit]
          else
            [TeaCmd.println (u0T.renderer.renderContent
              (u0T.state.buffer ++ contentsOf [chunkA] ++ chunkB.content)),
             TeaCmd.blink]]) :=
  claim6 envT u0T [chunkA] chunkB (by decide) rfl

/-- A non-executable engine completion. -/
def oNX : EngineExecOutput := ⟨"", "just an explanation", false⟩

/-- A final chat chunk used for quit checks. -/
def cLastT : EngineChatStreamOutput := ⟨"bye", true, false, false⟩

/-- A successful runner result. -/
def rOkT : RunOutput := mkRunOutput none "[error]" "[ok]"

/-- C7: each of the four cycle-completing events — a fully rendered chat
stream (final chunk), a non-executable exec result, a completed command
execution (runner feedback), all at an arbitrary session state `u`, and a
declined confirmation at a Confirming state `v` — emits Quit exactly when
the session runs in CLI mode, and never in REPL mode. -/
theorem claim7 (env : Env) (u v : Ui) (o : EngineExecOutput)
    (c : EngineChatStreamOutput) (r : RunOutput) (s : String)
    (ho : o.executable = false) (hc : c.last = true)
    (hcf : v.state.confirming = true) (hs : lowerString s ≠ "y") :
    (TeaCmd.quit ∈ cmdsOf (update env (Msg.execOut o) u) ↔
      u.state.runMode = RunMode.cli) ∧
    (TeaCmd.quit ∈ cmdsOf (update env (Msg.chatOut c) u) ↔
      u.state.runMode = RunMode.cli) ∧
    (TeaCmd.quit ∈ cmdsOf (update env (Msg.runOut r) u) ↔
      u.state.runMode = RunMode.cli) ∧
    (TeaCmd.quit ∈ cmdsOf (update env (Msg.key (UiKey.other s)) v) ↔
      v.state.runMode = RunMode.cli) := by
  rcases u with ⟨⟨er, rm, pm, cg, q, cf, ex, ar, pi, bu, cm⟩, di, pr, re, co, en, hi⟩
  rcases v with ⟨⟨er2, rm2, pm2, cg2, q2, cf2, ex2, ar2, pi2, bu2, cm2⟩,
                 di2, pr2, re2, co2, en2, hi2⟩
  subst hcf
  cases rm <;> cases rm2 <;>
    exact ⟨by simp [update, cmdsOf, ho], by simp [update, cmdsOf, hc],
           by simp [update, cmdsOf], by simp [update, cmdsOf, hs]⟩

/-- C7 witness: the final chat chunk at the querying CLI state `uCliT`
(quits), the runner feedback at the idle REPL state `u0T` (does not quit),
and the decline at the reachable Confirming REPL state `u1T` (does not
quit). -/
theorem claim7_witness :
    (TeaCmd.quit ∈ cmdsOf (update envT (Msg.chatOut cLastT) uCliT) ↔
      uCliT.state.runMode = RunMode.cli) ∧
    (TeaCmd.quit ∈ cmdsOf (update envT (Msg.runOut rOkT) u0T) ↔
      u0T.state.runMode = RunMode.cli) ∧
    (TeaCmd.quit ∈ cmdsOf (update envT (Msg.key (UiKey.other "n")) u1T) ↔
      u1T.state.runMode = RunMode.cli) :=
  ⟨(claim7 envT uCliT u1T oNX cLastT rOkT "n" rfl rfl rfl (by decide)).2.1,
   (claim7 envT u0T u1T oNX cLastT rOkT "n" rfl rfl rfl (by decide)).2.2.1,
   (claim7 envT u0T u1T oNX cLastT rOkT "n" rfl rfl rfl (by decide)).2.2.2⟩

/-- C8: declining a pending command (any default-case keystroke other than
y/Y) in REPL mode returns the session to Idle — all four phase flags false —
with the prompt empty and focused, the stored command cleared, and the
cancellation notice printed; the same decline in CLI mode prints the notice
and then quits. -/
theorem claim8 (env : Env) (u : Ui) (s : String)
    (hcf : u.state.confirming = true) (hs : lowerString s ≠ "y")
    (hq : u.state.querying = false) (hcg : u.state.configuring = false) :
    (u.state.runMode = RunMode.repl →
      update env (Msg.key (UiKey.other s)) u =
        some ({ u with state.confirming := false, state.executing := false,
                       state.buffer := "", state.command := "",
                       prompt := ((u.prompt.updateKey (UiKey.other s)).setValue "").focus },
              [TeaCmd.promptEff,
               TeaCmd.println ("\n" ++ u.renderer.renderWarning "[cancel]" ++ "\n"),
               TeaCmd.blink]) ∧
      ({ u with state.confirming := false, state.executing := false,
                state.buffer := "", state.command := "",
                prompt := ((u.prompt.updateKey (UiKey.other s)).setValue "").focus } : Ui).state.confirming = false ∧
      ({ u with state.confirming := false, state.executing := false,
                state.buffer := "", state.command := "",
                prompt := ((u.prompt.updateKey (UiKey.other s)).setValue "").focus } : Ui).state.executing = false ∧
      ({ u with state.confirming := false, state.executing := false,
                state.buffer := "", state.command := "",
                prompt := ((u.prompt.updateKey (UiKey.other s)).setValue "").focus } : Ui).state.querying = false ∧
      ({ u with state.confirming := false, state.executing := false,
                state.buffer := "", state.command := "",
                prompt := ((u.prompt.updateKey (UiKey.other s)).setValue "").focus } : Ui).state.configuring = false ∧
      ({ u with state.confirming := false, state.executing := false,
                state.buffer := "", state.command := "",
                prompt := ((u.prompt.updateKey (UiKey.other s)).setValue "").focus } : Ui).prompt.value = "" ∧
      ({ u with state.confirming := false, state.executing := false,
                state.buffer := "", state.command := "",
                prompt := ((u.prompt.updateKey (UiKey.other s)).setValue "").focus } : Ui).prompt.focused = true ∧
      ({ u with state.confirming := false, state.executing := false,
                state.buffer := "", state.command := "",
                prompt := ((u.prompt.updateKey (UiKey.other s)).setValue "").focus } : Ui).state.command = "") ∧
    (u.state.runMode = RunMode.cli →
      update env (Msg.key (UiKey.other s)) u =
        some ({ u with state.confirming := false, state.executing := false,
                       state.buffer := "",
                       prompt := ((u.prompt.updateKey (UiKey.other s)).setValue "").focus },
              [TeaCmd.promptEff,
               TeaCmd.println ("\n" ++ u.renderer.renderWarning "[cancel]" ++ "\n"),
               TeaCmd.quit])) := by
  have hcanc := update_confirm_cancel env u s hcf hs
  constructor
  · intro hr
    rw [if_pos hr] at hcanc
    exact ⟨hcanc, rfl, rfl, hq, hcg, rfl, rfl, rfl⟩
  · intro hr
    rw [if_neg (by simp [hr])] at hcanc
    exact hcanc

/-- C8 witness: declining with "n" at the reachable REPL Confirming state
`u1T`. -/
theorem claim8_witness :
    update envT (Msg.key (UiKey.other "n")) u1T =
      some ({ u1T with state.confirming := false, state.executing := false,
                       state.buffer := "", state.command := "",
                       prompt := ((u1T.prompt.updateKey (UiKey.other "n")).setValue "").focus },
            [TeaCmd.promptEff,
             TeaCmd.println ("\n" ++ u1T.renderer.renderWarning "[cancel]" ++ "\n"),
             TeaCmd.blink]) :=
  ((claim8 envT u1T "n" rfl (by decide) rfl rfl).1 rfl).1

/-- The engine mode of the engine installed by a settings-edit callback
result (`none` when the callback panicked or left no engine). -/
def engineModeAfter : Option (Ui × RunOutput) → Option EngineMode
  | some (u1, _) =>
    match u1.engine with
    | some en => some en.mode
    | none => none
  | none => none

/-- C9: after a successful settings-edit callback, and likewise after a
successfully submitted bootstrap configuration, the Engine is reconstructed
in Exec engine mode for every session state — regardless of the current
promptMode, including Chat. -/
theorem claim9 (env : Env) (u : Ui) (cfg : Config) (key : String)
    (hw : env.writeConfig key = Except.ok cfg)
    (hn : env.newEngineErr EngineMode.execEngine cfg = none) :
    engineModeAfter (editSettingsDone none (Except.ok cfg) none u) =
      some EngineMode.execEngine ∧
    (finishConfig env key u).1.engine.map Engine.mode =
      some EngineMode.execEngine := by
  constructor
  · by_cases hp : u.state.pipe = ""
    · simp [editSettingsDone, hp, engineModeAfter, mkEngine]
    · simp [editSettingsDone, hp, engineModeAfter, mkEngine, Engine.setPipe]
  · by_cases hr : u.state.runMode = RunMode.repl
    · by_cases hp : u.state.pipe = "" <;>
        simp [finishConfig, hw, hn, hr, hp, mkEngine, Engine.setPipe]
    · by_cases hpm : u.state.promptMode = PromptMode.exec <;>
        by_cases hp : u.state.pipe = "" <;>
          simp [finishConfig, hw, hn, hr, hpm, hp, mkEngine, Engine.setPipe]

/-- Chat-mode REPL session fixture. -/
def uChatT : Ui :=
  (startReplRun cfgT none
    (newUi rT ⟨RunMode.repl, PromptMode.chat, "", ""⟩)).1

/-- C9 witness: instantiated at a session whose promptMode is Chat. -/
theorem claim9_witness :
    uChatT.state.promptMode = PromptMode.chat ∧
    engineModeAfter (editSettingsDone none (Except.ok cfgT) none uChatT) =
      some EngineMode.execEngine ∧
    (finishConfig envT "key" uChatT).1.engine.map Engine.mode =
      some EngineMode.execEngine :=
  ⟨rfl, (claim9 envT uChatT cfgT "key" rfl rfl).1,
   (claim9 envT uChatT cfgT "key" rfl rfl).2⟩

/-- Session with piped stdin content installed. -/
def uPipeT : Ui := { u0T with state.pipe := "piped data" }

/-- C10: in the settings-edit callback, `SetPipe` is invoked on the freshly
constructed engine before the construction error is checked; hence when
engine construction fails and the piped input is non-empty, the callback
dereferences the nil engine (panic, `none`) and the error branch is never
reached — while with an empty pipe the same failure reaches the error
branch and reports a settings error. -/
theorem claim10 (u w : Ui) (cfg : Config) (e : String)
    (hp : u.state.pipe ≠ "") (hw0 : w.state.pipe = "") :
    editSettingsDone none (Except.ok cfg) (some e) u = none ∧
    editSettingsDone none (Except.ok cfg) (some e) w =
      some ({ w with state.executing := false, state.command := "",
                     config := some cfg },
            mkRunOutput (some e) "[settings error]" "") := by
  constructor
  · simp [editSettingsDone, hp]
  · simp [editSettingsDone, hw0]

/-- C10 witness: the callback panics at the piped session `uPipeT` and
reports the error at the unpiped session `u0T`. -/
theorem claim10_witness :
    editSettingsDone none (Except.ok cfgT) (some "boom") uPipeT = none ∧
    editSettingsDone none (Except.ok cfgT) (some "boom") u0T =
      some ({ u0T with state.executing := false, state.command := "",
                       config := some cfgT },
            mkRunOutput (some "boom") "[settings error]" "") :=
  claim10 uPipeT u0T cfgT "boom" (by decide) rfl

end TA
